import Mathlib

/-
Verification of the satellite data ingestion core of the repository:
TLE parsing and checksum validation (packages/backend/src/utils/tleParser.ts)
and the satellite service layer (classification, filtering, statistics and
fetch orchestration in services/satellite/satelliteService.ts).

Modelling conventions:
* JavaScript strings are modelled as List Char (for TLE lines) or String.
* JavaScript numbers are modelled exactly: as rationals where only field
  arithmetic and order comparisons occur, and as reals for the Kepler
  derivation (pi and the cube root). NaN results of parseFloat are modelled
  as Option.none.
* Asynchronous calls are modelled by explicit passing of the upstream
  results (one entry per endpoint) and of the wall clock timestamp.
-/

/-- Checksum contribution of one character, as computed by the loop body of
TLEParser.validateChecksum (tleParser.ts lines 181-190): a digit counts as its
value, a minus sign counts as 1, an uppercase letter counts as its character
code minus 55, and every other character counts as 0. -/
def checksumContribution (c : Char) : Nat :=
  if c = '-' then 1
  else if '0' ≤ c ∧ c ≤ '9' then c.toNat - 48
  else if 'A' ≤ c ∧ c ≤ 'Z' then c.toNat - 55
  else 0

/-- Sum of checksumContribution over the first 68 characters of a line,
mirroring the accumulation loop of TLEParser.validateChecksum. -/
def calculatedChecksum (line : List Char) : Nat :=
  ((line.take 68).map checksumContribution).sum

/-- TLEParser.validateChecksum (tleParser.ts lines 177-193). The source reads
the character at index 68 with parseInt: a digit gives its value, any other
character (or a missing one) gives NaN, and a comparison against NaN is
false. -/
def validateChecksum (line : List Char) : Bool :=
  match line.drop 68 with
  | c :: _ => if c.isDigit then calculatedChecksum line % 10 == c.toNat - 48 else false
  | [] => false

/-- The per-character checksum rule exactly as the specification states it
(digit to its own value, minus sign to 1, every other character to 0); kept
separate so the specified rule can be compared with the implemented one. -/
def specChecksumContribution (c : Char) : Nat :=
  if c = '-' then 1
  else if '0' ≤ c ∧ c ≤ '9' then c.toNat - 48
  else 0

/-- Sum of the specified checksum rule over the first 68 characters. -/
def specCalculatedChecksum (line : List Char) : Nat :=
  ((line.take 68).map specChecksumContribution).sum

/-- TLEParser.isValidTLE (tleParser.ts lines 159-172). Empty arguments, a line
length other than 69, or a wrong leading character reject the record. The
checksum results are computed but only logged on mismatch (warn only), so
they do not affect the returned value. -/
def isValidTLE (name line1 line2 : List Char) : Bool :=
  if name.isEmpty || line1.isEmpty || line2.isEmpty then false
  else if line1.length != 69 || line2.length != 69 then false
  else if line1.headD ' ' != '1' || line2.headD ' ' != '2' then false
  else
    let _checksumWarnOnly := validateChecksum line1 && validateChecksum line2
    true

/-- Digits to a natural number, most significant digit first. -/
def digitsToNat (ds : List Char) : Nat :=
  ds.foldl (fun acc c => 10 * acc + (c.toNat - 48)) 0

/-- JavaScript substring(start, stop) on a string modelled as a character
list: the characters from index start (inclusive) to stop (exclusive). -/
def jsSubstring (s : List Char) (start stop : Nat) : List Char :=
  (s.drop start).take (stop - start)

/-- Exponent part of a JavaScript float literal: an optional trailing e or E
with an optional sign and digits; a malformed exponent contributes 0, exactly
as parseFloat ignores it. -/
def parseExponent (s : List Char) : Int :=
  match s with
  | 'e' :: rest | 'E' :: rest =>
    (match rest with
     | '-' :: ds =>
       let d := ds.takeWhile Char.isDigit
       if d.isEmpty then 0 else -(digitsToNat d : Int)
     | '+' :: ds =>
       let d := ds.takeWhile Char.isDigit
       if d.isEmpty then 0 else (digitsToNat d : Int)
     | ds =>
       let d := ds.takeWhile Char.isDigit
       if d.isEmpty then 0 else (digitsToNat d : Int))
  | _ => 0

/-- JavaScript parseFloat on a character list: skip leading whitespace, an
optional sign, integer digits, an optional decimal point with fraction
digits, and an optional exponent, taking the longest valid prefix; none
models the NaN result (no digit at all). The Infinity literal, which never
occurs in TLE columns, is not modelled. -/
def parseFloat (s : List Char) : Option ℚ :=
  let s1 := s.dropWhile (fun c => c == ' ' || c == '\t' || c == '\n' || c == '\r')
  let signAndRest : ℚ × List Char :=
    match s1 with
    | '-' :: r => (-1, r)
    | '+' :: r => (1, r)
    | _ => (1, s1)
  let intDs := signAndRest.2.takeWhile Char.isDigit
  let r1 := signAndRest.2.dropWhile Char.isDigit
  let fracAndRest : List Char × List Char :=
    match r1 with
    | '.' :: rest => (rest.takeWhile Char.isDigit, rest.dropWhile Char.isDigit)
    | _ => ([], r1)
  if intDs.isEmpty && fracAndRest.1.isEmpty then none
  else
    let mantissa : ℚ :=
      (digitsToNat intDs : ℚ) + (digitsToNat fracAndRest.1 : ℚ) / (10 : ℚ) ^ fracAndRest.1.length
    let e := parseExponent fracAndRest.2
    let scale : ℚ := if 0 ≤ e then (10 : ℚ) ^ e.toNat else 1 / (10 : ℚ) ^ (-e).toNat
    some (signAndRest.1 * mantissa * scale)

/-- The meanMotion value read by TLEParser.extractOrbitalElements
(tleParser.ts line 92): parseFloat(line1.substring(52, 63)). The source reads
LINE 1 for this field; the second line is in scope at the call site but is
not used for this field. -/
def extractMeanMotion (line1 _line2 : List Char) : Option ℚ :=
  parseFloat (jsSubstring line1 52 63)

/-- The derived period of TLEParser.extractOrbitalElements (tleParser.ts line
109): a mean motion greater than 0 gives (24 * 60) / meanMotion minutes, any
other value (including NaN, which fails the comparison) gives 0. -/
def extractPeriod (line1 line2 : List Char) : ℚ :=
  match extractMeanMotion line1 line2 with
  | some m => if 0 < m then (24 * 60) / m else 0
  | none => 0

/-- TLEParser.calculateSemiMajorAxis (tleParser.ts lines 127-140) over the
reals: 0 for a nonpositive mean motion, otherwise the Kepler third law value
for the mean motion converted from revolutions per day to radians per
second. -/
noncomputable def calculateSemiMajorAxis (meanMotion : ℝ) : ℝ :=
  if meanMotion ≤ 0 then 0
  else
    let GM : ℝ := 3.986004418e5
    let n : ℝ := meanMotion * 2 * Real.pi / (24 * 3600)
    (GM / (n * n)) ^ ((1 : ℝ) / 3)

/-- The period derivation of TLEParser.extractOrbitalElements (tleParser.ts
line 109) over the reals, for the statement of the derivation claim. -/
noncomputable def derivedPeriod (meanMotion : ℝ) : ℝ :=
  if 0 < meanMotion then (24 * 60) / meanMotion else 0

/-- Mission type tags from shared/types/satellite.ts (SatelliteType). -/
inductive SatelliteType
  | communication
  | weather
  | military
  | scientific
  | navigation
  | spaceStation
  | debris
  | unknown
deriving DecidableEq

/-- Orbit regime tags from shared/types/satellite.ts (OrbitType). -/
inductive OrbitType
  | lowEarthOrbit
  | mediumEarthOrbit
  | geostationary
  | highEarthOrbit
  | polar
  | sunSynchronous
  | molniya
  | unknown
deriving DecidableEq

/-- Data source tag from shared/types/satellite.ts (SatelliteData.dataSource). -/
inductive DataSource
  | celestrak
  | spaceTrack
  | manual
deriving DecidableEq

/-- Vector3 from shared/types/satellite.ts (renamed Vec3, the name Vector3 is taken by the mathematics library), with numbers as rationals. -/
structure Vec3 where
  x : ℚ
  y : ℚ
  z : ℚ
deriving DecidableEq

/-- OrbitalElements from shared/types/satellite.ts, with numbers as
rationals and the epoch timestamp as a string. -/
structure OrbitalElements where
  semiMajorAxis : ℚ
  eccentricity : ℚ
  inclination : ℚ
  rightAscension : ℚ
  argumentOfPeriapsis : ℚ
  meanAnomaly : ℚ
  epoch : String
  meanMotion : ℚ
  period : ℚ
deriving DecidableEq

/-- SatelliteMetadata from shared/types/satellite.ts, restricted to the
fields the service layer writes. The launchDate key is present on the
constructed object only when the parser metadata supplies it, hence an
Option. -/
structure SatelliteMetadata where
  noradId : String
  internationalDesignator : String
  launchDate : Option String
  country : String
  operator : String
  mission : String
deriving DecidableEq

/-- The optional-field metadata produced by TLEParser.extractMetadata (a
subset of SatelliteMetadata with every field optional, as in the TypeScript
type of ParsedTLE.metadata). -/
structure TleMetadata where
  noradId : Option String := none
  internationalDesignator : Option String := none
  launchDate : Option String := none
  country : Option String := none
  operator : Option String := none
  mission : Option String := none
deriving DecidableEq

/-- ParsedTLE from tleParser.ts, as consumed by the service layer. -/
structure ParsedTLE where
  noradId : String
  name : String
  line1 : String
  line2 : String
  epoch : String
  orbitalElements : OrbitalElements
  metadata : TleMetadata
deriving DecidableEq

/-- SatelliteData from shared/types/satellite.ts. -/
structure SatelliteData where
  id : String
  name : String
  type : SatelliteType
  position : Vec3
  velocity : Vec3
  orbitalElements : OrbitalElements
  metadata : SatelliteMetadata
  orbitType : OrbitType
  isActive : Bool
  lastUpdated : String
  dataSource : DataSource
deriving DecidableEq

/-- A min and max pair, as in the altitudeRange and inclinationRange filter
fields of shared/types/satellite.ts. -/
structure RangeFilter where
  min : ℚ
  max : ℚ
deriving DecidableEq

/-- SatelliteFilter from shared/types/satellite.ts: every criterion is
optional. -/
structure SatelliteFilter where
  type : Option (List SatelliteType) := none
  orbitType : Option (List OrbitType) := none
  country : Option (List String) := none
  operator : Option (List String) := none
  isActive : Option Bool := none
  altitudeRange : Option RangeFilter := none
  inclinationRange : Option RangeFilter := none
deriving DecidableEq

/-- SatelliteStats from shared/types/satellite.ts. The three Record
breakdowns are modelled as (total) count functions, matching the
increment-or-start-at-zero accumulation of the source. -/
structure SatelliteStats where
  total : Nat
  active : Nat
  inactive : Nat
  byType : SatelliteType → Nat
  byOrbitType : OrbitType → Nat
  byCountry : String → Nat
  averageAltitude : ℚ
  altitudeRangeMin : ℚ
  altitudeRangeMax : ℚ

/-- Whether the first list occurs as the leading segment of the second. -/
def leadsList : List Char → List Char → Bool
  | [], _ => true
  | _ :: _, [] => false
  | a :: as, b :: bs => a == b && leadsList as bs

/-- JavaScript String.prototype.includes modelled on character lists: the
needle occurs contiguously somewhere in the haystack. -/
def containsSub (needle : List Char) : List Char → Bool
  | [] => needle.isEmpty
  | hay@(_ :: rest) => leadsList needle hay || containsSub needle rest

/-- SatelliteService.classifySatelliteType (satelliteService.ts lines
297-320): case insensitive substring checks against the name, in the fixed
source order, first match winning. The source receives the data source
string but never reads it. JavaScript toLowerCase agrees with Char.toLower
on the ASCII names involved. -/
def classifySatelliteType (name _source : String) : SatelliteType :=
  let lowerName := name.toList.map Char.toLower
  if containsSub (("iss").toList) lowerName || containsSub (("station").toList) lowerName then
    SatelliteType.spaceStation
  else if containsSub (("gps").toList) lowerName || containsSub (("glonass").toList) lowerName ||
      containsSub (("galileo").toList) lowerName || containsSub (("beidou").toList) lowerName then
    SatelliteType.navigation
  else if containsSub (("weather").toList) lowerName || containsSub (("meteor").toList) lowerName ||
      containsSub (("noaa").toList) lowerName then
    SatelliteType.weather
  else if containsSub (("military").toList) lowerName || containsSub (("defense").toList) lowerName ||
      containsSub (("classified").toList) lowerName then
    SatelliteType.military
  else if containsSub (("starlink").toList) lowerName || containsSub (("oneweb").toList) lowerName ||
      containsSub (("iridium").toList) lowerName then
    SatelliteType.communication
  else if containsSub (("hubble").toList) lowerName || containsSub (("james webb").toList) lowerName ||
      containsSub (("telescope").toList) lowerName then
    SatelliteType.scientific
  else
    SatelliteType.unknown

/-- SatelliteService.calculateAltitude (satelliteService.ts lines 354-357):
semi major axis minus the mean Earth radius of 6371 km. -/
def calculateAltitude (semiMajorAxis : ℚ) : ℚ :=
  semiMajorAxis - 6371

/-- SatelliteService.classifyOrbitType (satelliteService.ts lines 325-349):
the ordered altitude bands, then the inclination bands, first match
winning. -/
def classifyOrbitType (orbitalElements : OrbitalElements) : OrbitType :=
  let altitude := calculateAltitude orbitalElements.semiMajorAxis
  let inclination := orbitalElements.inclination
  if altitude < 2000 then OrbitType.lowEarthOrbit
  else if altitude < 35786 then OrbitType.mediumEarthOrbit
  else if 35786 ≤ altitude ∧ altitude < 36000 then OrbitType.geostationary
  else if 36000 < altitude then OrbitType.highEarthOrbit
  else if |inclination - 90| < 10 then OrbitType.polar
  else if |inclination - 98| < 5 then OrbitType.sunSynchronous
  else OrbitType.unknown

/-- The per-record predicate of SatelliteService.applyFilters
(satelliteService.ts lines 365-383): each supplied criterion that the record
fails returns false early; a record passing every guard returns true. An
empty criterion list is supplied (truthy in the source), so membership in it
fails. -/
def matchesFilter (filter : SatelliteFilter) (satellite : SatelliteData) : Bool :=
  if (match filter.type with
      | some ts => !(ts.contains satellite.type)
      | none => false) then false
  else if (match filter.orbitType with
      | some os => !(os.contains satellite.orbitType)
      | none => false) then false
  else if (match filter.country with
      | some cs => !(cs.contains satellite.metadata.country)
      | none => false) then false
  else if (match filter.operator with
      | some os => !(os.contains satellite.metadata.operator)
      | none => false) then false
  else if (match filter.isActive with
      | some b => satellite.isActive != b
      | none => false) then false
  else if (match filter.altitudeRange with
      | some r =>
        decide (calculateAltitude satellite.orbitalElements.semiMajorAxis < r.min) ||
          decide (r.max < calculateAltitude satellite.orbitalElements.semiMajorAxis)
      | none => false) then false
  else if (match filter.inclinationRange with
      | some r =>
        decide (satellite.orbitalElements.inclination < r.min) ||
          decide (r.max < satellite.orbitalElements.inclination)
      | none => false) then false
  else true

/-- SatelliteService.applyFilters (satelliteService.ts lines 362-384): an
absent filter returns the list unchanged, otherwise the list is filtered by
matchesFilter. -/
def applyFilters (satellites : List SatelliteData) (filter : Option SatelliteFilter) :
    List SatelliteData :=
  match filter with
  | none => satellites
  | some f => satellites.filter (fun satellite => matchesFilter f satellite)

/-- SatelliteService.convertTLEToSatellite (satelliteService.ts lines
269-292). The wall clock timestamp written to lastUpdated is passed
explicitly. The metadata literal spreads tle.metadata last, so a field
present there overrides the defaults listed before it. -/
def convertTLEToSatellite (now : String) (tle : ParsedTLE) (source : String) : SatelliteData :=
  { id := tle.noradId
    name := tle.name
    type := classifySatelliteType tle.name source
    position := { x := 0, y := 0, z := 0 }
    velocity := { x := 0, y := 0, z := 0 }
    orbitalElements := tle.orbitalElements
    metadata :=
      { noradId := tle.metadata.noradId.getD tle.noradId
        internationalDesignator := tle.metadata.internationalDesignator.getD ("")
        launchDate := tle.metadata.launchDate
        country := tle.metadata.country.getD ("Unknown")
        operator := tle.metadata.operator.getD ("Unknown")
        mission := tle.metadata.mission.getD ("Unknown") }
    orbitType := classifyOrbitType tle.orbitalElements
    isActive := true
    lastUpdated := now
    dataSource := if source == "space-track" then DataSource.spaceTrack else DataSource.celestrak }

/-- The statistics computation of SatelliteService.getSatelliteStats
(satelliteService.ts lines 175-205), applied to the satellite collection the
surrounding fetch produced. -/
def getSatelliteStatsOf (satellites : List SatelliteData) : SatelliteStats :=
  let altitudes := satellites.map fun s => calculateAltitude s.orbitalElements.semiMajorAxis
  { total := satellites.length
    active := (satellites.filter fun s => s.isActive).length
    inactive := (satellites.filter fun s => !s.isActive).length
    byType := satellites.foldl (fun m s => Function.update m s.type (m s.type + 1)) fun _ => 0
    byOrbitType :=
      satellites.foldl (fun m s => Function.update m s.orbitType (m s.orbitType + 1)) fun _ => 0
    byCountry :=
      satellites.foldl
        (fun m s => Function.update m s.metadata.country (m s.metadata.country + 1)) fun _ => 0
    averageAltitude :=
      match altitudes with
      | [] => 0
      | _ :: _ => altitudes.sum / altitudes.length
    altitudeRangeMin :=
      match altitudes with
      | [] => 0
      | a :: rest => rest.foldl min a
    altitudeRangeMax :=
      match altitudes with
      | [] => 0
      | a :: rest => rest.foldl max a }

/-- The typed terminal error built at satelliteService.ts lines 140-143:
code and status, with the two underlying provider errors kept in the
details. Underlying errors are modelled as strings. -/
structure ApiError where
  code : String
  message : String
  status : Nat
  originalError : String
  fallbackError : String
deriving DecidableEq

/-- One iteration of the endpoint loop of SatelliteService.fetchFromCelesTrak
(satelliteService.ts lines 224-236). Each entry pairs an endpoint name with
the outcome of the HTTP get composed with TLEParser.parseCelesTrakTLE (the
parse is total, so an endpoint attempt fails exactly when the request
fails). A failed endpoint is caught, logged and skipped, so the loop never
throws; a successful endpoint has its records converted and appended. -/
def celestrakEndpointStep (now : String) (allSatellites : List SatelliteData)
    (er : String × Except String (List ParsedTLE)) : List SatelliteData :=
  match er.2 with
  | Except.ok parsedTLEs =>
    allSatellites ++ parsedTLEs.map fun tle => convertTLEToSatellite now tle er.1
  | Except.error _ => allSatellites

/-- The aggregation loop of SatelliteService.fetchFromCelesTrak, one
celestrakEndpointStep per endpoint starting from the empty collection. -/
def fetchFromCelesTrak (now : String)
    (endpointResults : List (String × Except String (List ParsedTLE))) : List SatelliteData :=
  endpointResults.foldl (celestrakEndpointStep now) []

/-- SatelliteService.fetchFromSpaceTrack (satelliteService.ts lines
244-264): a single authenticated request; a request failure aborts the whole
call, a success parses the JSON into records and converts them with the
space-track source tag. -/
def fetchFromSpaceTrack (now : String) (response : Except String (List ParsedTLE)) :
    Except String (List SatelliteData) :=
  match response with
  | Except.ok parsedTLEs =>
    Except.ok (parsedTLEs.map fun tle => convertTLEToSatellite now tle ("space-track"))
  | Except.error e => Except.error e

/-- The catch handler of SatelliteService.getActiveSatellites
(satelliteService.ts lines 115-145), entered only when the CelesTrak fetch
throws with error e: attempt the Space-Track fallback, filter and return on
success, and on a second failure throw the terminal SATELLITE_FETCH_FAILED
error carrying both underlying errors. -/
def celestrakFailureHandler (now : String) (e : String)
    (spaceTrackResponse : Except String (List ParsedTLE)) (filter : Option SatelliteFilter) :
    Except ApiError (List SatelliteData) :=
  match fetchFromSpaceTrack now spaceTrackResponse with
  | Except.ok satellites => Except.ok (applyFilters satellites filter)
  | Except.error fallbackError =>
    Except.error
      { code := "SATELLITE_FETCH_FAILED"
        message := "SATELLITE_FETCH_FAILED: Failed to fetch satellite data from all sources"
        status := 500
        originalError := e
        fallbackError := fallbackError }

/-- The cache miss path of SatelliteService.getActiveSatellites
(satelliteService.ts lines 96-146): try the CelesTrak fetch, filter and
return. fetchFromCelesTrak catches every per-endpoint failure internally and
cannot throw, so the try always succeeds and the catch handler is never
entered from an endpoint failure. -/
def getActiveSatellitesUncached (now : String)
    (celestrakResults : List (String × Except String (List ParsedTLE)))
    (spaceTrackResponse : Except String (List ParsedTLE)) (filter : Option SatelliteFilter) :
    Except ApiError (List SatelliteData) :=
  match (Except.ok (fetchFromCelesTrak now celestrakResults) :
      Except String (List SatelliteData)) with
  | Except.ok satellites => Except.ok (applyFilters satellites filter)
  | Except.error e => celestrakFailureHandler now e spaceTrackResponse filter

/-- SatelliteService.getActiveSatellites (satelliteService.ts lines 82-147)
with the cache read made explicit: a cache hit returns the cached collection
unchanged, a miss runs the fetch chain. -/
def getActiveSatellites (now : String) (cached : Option (List SatelliteData))
    (celestrakResults : List (String × Except String (List ParsedTLE)))
    (spaceTrackResponse : Except String (List ParsedTLE)) (filter : Option SatelliteFilter) :
    Except ApiError (List SatelliteData) :=
  match cached with
  | some satellites => Except.ok satellites
  | none => getActiveSatellitesUncached now celestrakResults spaceTrackResponse filter

/-- Evaluation of an ordered list of rules (predicate and tag pairs) from
the top, with a default tag; the explicit rule list form the specification
gives for the two classification heuristics. -/
def firstRuleMatch {α β : Type} (x : α) (default : β) : List ((α → Bool) × β) → β
  | [] => default
  | (p, tag) :: rest => if p x then tag else firstRuleMatch x default rest

/-- The orbit regime rule chain exactly as the specification orders it,
as predicates on the altitude and inclination pair. -/
def orbitRegimeRules : List ((ℚ × ℚ → Bool) × OrbitType) :=
  [(fun p => decide (p.1 < 2000), OrbitType.lowEarthOrbit),
   (fun p => decide (p.1 < 35786), OrbitType.mediumEarthOrbit),
   (fun p => decide (35786 ≤ p.1) && decide (p.1 < 36000), OrbitType.geostationary),
   (fun p => decide (36000 < p.1), OrbitType.highEarthOrbit),
   (fun p => decide (|p.2 - 90| < 10), OrbitType.polar),
   (fun p => decide (|p.2 - 98| < 5), OrbitType.sunSynchronous)]

/-- Orbit regime as the specification words it: the ordered rule list over
altitude and inclination with unknown as the default. -/
def specOrbitRegime (altitude inclination : ℚ) : OrbitType :=
  firstRuleMatch (altitude, inclination) OrbitType.unknown orbitRegimeRules

/-- The mission type keyword table exactly as the specification orders it. -/
def missionTypeRules : List ((List Char → Bool) × SatelliteType) :=
  [(fun lower => (["iss", "station"] : List String).any
      fun k => containsSub k.toList lower, SatelliteType.spaceStation),
   (fun lower => (["gps", "glonass", "galileo", "beidou"] : List String).any
      fun k => containsSub k.toList lower, SatelliteType.navigation),
   (fun lower => (["weather", "meteor", "noaa"] : List String).any
      fun k => containsSub k.toList lower, SatelliteType.weather),
   (fun lower => (["military", "defense", "classified"] : List String).any
      fun k => containsSub k.toList lower, SatelliteType.military),
   (fun lower => (["starlink", "oneweb", "iridium"] : List String).any
      fun k => containsSub k.toList lower, SatelliteType.communication),
   (fun lower => (["hubble", "james webb", "telescope"] : List String).any
      fun k => containsSub k.toList lower, SatelliteType.scientific)]

/-- Mission type as the specification words it: the ordered keyword rule
list over the lowercased name with unknown as the default. -/
def specMissionType (name : String) : SatelliteType :=
  firstRuleMatch (name.toList.map Char.toLower) SatelliteType.unknown missionTypeRules

/-- A record satisfies every supplied criterion of a filter; the omitted
criteria impose no constraint, and both ranges are inclusive. This is the
conjunctive reading the specification gives for filtering. -/
def passesFilter (filter : SatelliteFilter) (satellite : SatelliteData) : Prop :=
  (∀ ts, filter.type = some ts → satellite.type ∈ ts) ∧
  (∀ os, filter.orbitType = some os → satellite.orbitType ∈ os) ∧
  (∀ cs, filter.country = some cs → satellite.metadata.country ∈ cs) ∧
  (∀ ops, filter.operator = some ops → satellite.metadata.operator ∈ ops) ∧
  (∀ b, filter.isActive = some b → satellite.isActive = b) ∧
  (∀ r, filter.altitudeRange = some r →
    r.min ≤ calculateAltitude satellite.orbitalElements.semiMajorAxis ∧
    calculateAltitude satellite.orbitalElements.semiMajorAxis ≤ r.max) ∧
  (∀ r, filter.inclinationRange = some r →
    r.min ≤ satellite.orbitalElements.inclination ∧
    satellite.orbitalElements.inclination ≤ r.max)

/-- Whether an Except value is a failure. -/
def exceptFailed {ε α : Type} : Except ε α → Bool
  | Except.error _ => true
  | Except.ok _ => false

/-- Concrete orbital elements of a low Earth orbit record (the ISS values of
the repository test data). -/
def issOrbitalElements : OrbitalElements :=
  { semiMajorAxis := 6798
    eccentricity := 1647 / 10000000
    inclination := 516416 / 10000
    rightAscension := 1234567 / 10000
    argumentOfPeriapsis := 1234567 / 10000
    meanAnomaly := 2345678 / 10000
    epoch := "2024-05-02T10:57:46.000Z"
    meanMotion := 1549 / 100
    period := 925 / 10 }

/-- A concrete parsed record for the Space-Track response in the fetch
orchestration inputs. -/
def c1ParsedTLE : ParsedTLE :=
  { noradId := "25544"
    name := "ISS (ZARYA)"
    line1 := "1 25544U 98067A   24123.45678901  .00001234  00000-0  12345-4 0  9995"
    line2 := "2 25544  51.6416 247.4627 0006703 130.5360 325.0288 15.72125391563537"
    epoch := "2024-05-02T10:57:46.000Z"
    orbitalElements := issOrbitalElements
    metadata :=
      { noradId := some ("25544")
        internationalDesignator := some ("1998-067A") } }

/-- The eight CelesTrak endpoints of satelliteService.ts lines 211-220, each
request failing. -/
def c1FailedEndpoints : List (String × Except String (List ParsedTLE)) :=
  [("/active.txt", Except.error ("network error")),
   ("/stations.txt", Except.error ("network error")),
   ("/weather.txt", Except.error ("network error")),
   ("/noaa.txt", Except.error ("network error")),
   ("/gps-ops.txt", Except.error ("network error")),
   ("/glo-ops.txt", Except.error ("network error")),
   ("/galileo.txt", Except.error ("network error")),
   ("/beidou.txt", Except.error ("network error"))]

/-- A successful Space-Track response holding one record. -/
def c1SpaceTrackResponse : Except String (List ParsedTLE) :=
  Except.ok [c1ParsedTLE]

/-- A 69 character TLE line 1 (the repository test vector padded to a full
line). -/
def c2Line1A : List Char :=
  ("1 25544U 98067A   24123.45678901  .00001234  00000-0  12345-4 0  9995").toList

/-- The same line 1 with only the characters in columns 52 to 62 changed
(the region the source feeds to parseFloat for meanMotion, inside the drag
and ephemeris fields of line 1). -/
def c2Line1B : List Char :=
  ("1 25544U 98067A   24123.45678901  .00001234  00000-099.99999-9   9995").toList

/-- A 69 character TLE line 2 shared by both records. -/
def c2Line2 : List Char :=
  ("2 25544  51.6416 247.4627 0006703 130.5360 325.0288 15.72125391563537").toList

/-- A 69 character line whose first character is an uppercase B (contributing
11 in the implemented checksum and 0 in the specified rule) and whose final
checksum digit is 1. -/
def c3CounterLine : List Char :=
  'B' :: List.replicate 67 ' ' ++ ['1']

/-- A 69 character line of zeros: both checksum rules agree on it and its
checksum digit is correct. -/
def c3WitnessLine : List Char :=
  List.replicate 69 '0'

/-- A nonempty satellite name. -/
def c4Name : List Char :=
  ("ISS (ZARYA)").toList

/-- A 69 character line 1 whose checksum digit is wrong (the implemented sum
ends in 1 while the final character is 5). -/
def c4Line1 : List Char :=
  ("1 25544U 98067A   24123.45678901  .00001234  00000-0  12345-4 0  9995").toList

/-- A 69 character line 2 with a correct checksum digit. -/
def c4Line2 : List Char :=
  ("2 25544  51.6416 247.4627 0006703 130.5360 325.0288 15.72125391563537").toList

/-- Orbital elements with a 400 km derived altitude. -/
def c6Elements : OrbitalElements :=
  { semiMajorAxis := 6771
    eccentricity := 0
    inclination := 95
    rightAscension := 0
    argumentOfPeriapsis := 0
    meanAnomaly := 0
    epoch := ""
    meanMotion := 0
    period := 0 }

/-- Orbital elements with a 427 km derived altitude, away from the 36000 km
boundary. -/
def c9Elements : OrbitalElements :=
  { semiMajorAxis := 6798
    eccentricity := 0
    inclination := 45
    rightAscension := 0
    argumentOfPeriapsis := 0
    meanAnomaly := 0
    epoch := ""
    meanMotion := 0
    period := 0 }

/-- A concrete parsed record for the conversion invariant. -/
def c10ParsedTLE : ParsedTLE :=
  { noradId := "43013"
    name := "NOAA-20"
    line1 := ""
    line2 := ""
    epoch := ""
    orbitalElements := issOrbitalElements
    metadata := { noradId := some ("43013") } }

/-- A filter selecting inactive records only. -/
def c10Filter : SatelliteFilter :=
  { isActive := some false }

/-- C3 counterexample: a 69 character line on which validateChecksum returns
true although the sum specified by the claim (digit values, minus sign as 1,
everything else 0) is 0 modulo 10 while the checksum digit is 1: the claimed
equivalence fails because the implementation also counts uppercase letters. -/
theorem c3_counterexample :
    c3CounterLine.length = 69 ∧
    validateChecksum c3CounterLine = true ∧
    specCalculatedChecksum c3CounterLine % 10 = 0 ∧
    c3CounterLine.getLast? = some '1' := by
  refine ⟨by decide, by decide, by decide, by decide⟩

/-- C3 amended: for every 69 character line, validateChecksum returns true
exactly when the final character is a digit and the implemented sum over the
first 68 characters (digits as values, minus sign as 1, uppercase letters as
character code minus 55, everything else 0) is congruent to that digit
modulo 10. -/
theorem c3_theorem (line : List Char) (h : line.length = 69) :
    validateChecksum line = true ↔
      ∃ c, line.drop 68 = [c] ∧ c.isDigit = true ∧
        calculatedChecksum line % 10 = c.toNat - 48 := by
  have hlen : (line.drop 68).length = 1 := by
    simp [List.length_drop, h]
  cases hdrop : line.drop 68 with
  | nil => rw [hdrop] at hlen; simp at hlen
  | cons c rest =>
    rw [hdrop] at hlen
    have hrest : rest = [] := by
      simpa using hlen
    subst hrest
    unfold validateChecksum
    rw [hdrop]
    cases hdig : c.isDigit with
    | false => simp [hdig]
    | true => simp [hdig]


/-- C3 witness: the amended equivalence applied to the all-zeros line, whose
checksum digit is correct. -/
theorem c3_witness :
    c3WitnessLine.length = 69 ∧ validateChecksum c3WitnessLine = true := by
  refine ⟨by decide, ?_⟩
  exact (c3_theorem c3WitnessLine (by decide)).mpr ⟨'0', by decide, by decide, by decide⟩

/-- C4 counterexample: with an empty name, two correctly shaped 69 character
lines with the right leading characters are still rejected, so the record is
not accepted for every name as the claim states. -/
theorem c4_counterexample :
    isValidTLE [] c4Line1 c4Line2 = false ∧
    c4Line1.length = 69 ∧ c4Line2.length = 69 ∧
    c4Line1.headD ' ' = '1' ∧ c4Line2.headD ' ' = '2' := by
  refine ⟨by decide, by decide, by decide, by decide, by decide⟩

/-- C4 amended: for every nonempty name and every pair of 69 character lines
whose leading characters are 1 and 2, isValidTLE returns true, with no
hypothesis on either checksum: a checksum mismatch is only logged and never
rejects the record. -/
theorem c4_theorem (name line1 line2 : List Char) (hn : name ≠ [])
    (h1 : line1.length = 69) (h2 : line2.length = 69)
    (hl1 : line1.headD ' ' = '1') (hl2 : line2.headD ' ' = '2') :
    isValidTLE name line1 line2 = true := by
  have hne1 : line1 ≠ [] := by
    intro e
    rw [e] at h1
    simp at h1
  have hne2 : line2 ≠ [] := by
    intro e
    rw [e] at h2
    simp at h2
  simp at hl1 hl2
  simp [isValidTLE, hn, hne1, hne2, h1, h2, hl1, hl2]

/-- C4 witness: a nonempty name with a line 1 whose checksum digit is wrong
(validateChecksum rejects it) is still accepted by isValidTLE. -/
theorem c4_witness :
    validateChecksum c4Line1 = false ∧ isValidTLE c4Name c4Line1 c4Line2 = true := by
  refine ⟨by decide, ?_⟩
  exact c4_theorem c4Name c4Line1 c4Line2 (by decide) (by decide) (by decide) (by decide)
    (by decide)

/-- C2: the code reads meanMotion from line 1 columns 52 to 62, so two
records with identical line 2 but different drag-region columns of line 1
parse different meanMotion values (and hence different derived periods),
contradicting the claim that meanMotion is a function of line 2. The two
line 1 values differ only inside columns 52 to 62. -/
theorem c2_code_bug :
    c2Line1A.length = 69 ∧ c2Line1B.length = 69 ∧ c2Line2.length = 69 ∧
    jsSubstring c2Line1A 0 52 = jsSubstring c2Line1B 0 52 ∧
    c2Line1A.drop 63 = c2Line1B.drop 63 ∧
    extractMeanMotion c2Line1A c2Line2 ≠ extractMeanMotion c2Line1B c2Line2 ∧
    extractPeriod c2Line1A c2Line2 ≠ extractPeriod c2Line1B c2Line2 := by
  have ha : extractMeanMotion c2Line1A c2Line2 = some 12345 := by
    simp [extractMeanMotion, jsSubstring, parseFloat, parseExponent, digitsToNat, c2Line1A]
  have hb : extractMeanMotion c2Line1B c2Line2 = some (9999999 / 100000) := by
    simp [extractMeanMotion, jsSubstring, parseFloat, parseExponent, digitsToNat, c2Line1B]
    norm_num
  refine ⟨by decide, by decide, by decide, by decide, by decide, ?_, ?_⟩
  · rw [ha, hb]
    simp only [ne_eq, Option.some.injEq]
    norm_num
  · simp only [extractPeriod, ha, hb]
    norm_num

/-- C5: a nonpositive mean motion gives semi major axis 0 and period 0; a
positive mean motion gives period (24 * 60) / meanMotion minutes and semi
major axis (GM / n squared) to the power one third with
n = meanMotion * 2 * pi / 86400 and GM = 3.986004418e5. -/
theorem c5_theorem (m : ℝ) :
    (m ≤ 0 → calculateSemiMajorAxis m = 0 ∧ derivedPeriod m = 0) ∧
    (0 < m →
      derivedPeriod m = (24 * 60) / m ∧
      calculateSemiMajorAxis m =
        ((3.986004418e5 : ℝ) / ((m * (2 * Real.pi) / 86400) ^ 2)) ^ ((1 : ℝ) / 3)) := by
  constructor
  · intro h
    constructor
    · simp [calculateSemiMajorAxis, h]
    · simp [derivedPeriod, not_lt.mpr h]
  · intro h
    constructor
    · simp [derivedPeriod, h]
    · simp only [calculateSemiMajorAxis, not_le.mpr h, if_false]
      congr 1
      rw [pow_two]
      ring_nf

/-- C5 witness: the theorem applied at meanMotion -1 and 2. -/
theorem c5_witness :
    calculateSemiMajorAxis (-1) = 0 ∧ derivedPeriod (-1) = 0 ∧ derivedPeriod 2 = 720 := by
  have h1 := (c5_theorem (-1)).1 (by norm_num)
  have h2 := ((c5_theorem 2).2 (by norm_num)).1
  refine ⟨h1.1, h1.2, ?_⟩
  rw [h2]
  norm_num

/-- C6: classifyOrbitType is the ordered rule chain of the specification
over the derived altitude and the inclination, and in particular altitude
400 gives low Earth orbit for every inclination, altitude 35800 gives
geostationary, and altitude 400000 gives high Earth orbit. -/
theorem c6_theorem (oe : OrbitalElements) :
    classifyOrbitType oe =
      specOrbitRegime (calculateAltitude oe.semiMajorAxis) oe.inclination ∧
    (calculateAltitude oe.semiMajorAxis = 400 →
      classifyOrbitType oe = OrbitType.lowEarthOrbit) ∧
    (calculateAltitude oe.semiMajorAxis = 35800 →
      classifyOrbitType oe = OrbitType.geostationary) ∧
    (calculateAltitude oe.semiMajorAxis = 400000 →
      classifyOrbitType oe = OrbitType.highEarthOrbit) := by
  refine ⟨?_, ?_, ?_, ?_⟩
  · simp only [classifyOrbitType, specOrbitRegime, orbitRegimeRules, firstRuleMatch,
      Bool.and_eq_true, decide_eq_true_eq]
  · intro h
    unfold classifyOrbitType
    rw [h]
    norm_num
  · intro h
    unfold classifyOrbitType
    rw [h]
    norm_num
  · intro h
    unfold classifyOrbitType
    rw [h]
    norm_num

/-- C6 witness: the 400 km altitude case of the theorem on concrete orbital
elements with a 95 degree inclination. -/
theorem c6_witness :
    calculateAltitude c6Elements.semiMajorAxis = 400 ∧
    classifyOrbitType c6Elements = OrbitType.lowEarthOrbit := by
  have h400 : calculateAltitude c6Elements.semiMajorAxis = 400 := by
    norm_num [calculateAltitude, c6Elements]
  exact ⟨h400, (c6_theorem c6Elements).2.1 h400⟩

/-- C9: away from an exact 36000 km altitude the classifier always answers
with one of the four altitude bands, and the polar, sun synchronous and
unknown answers force the altitude to be exactly 36000 km. -/
theorem c9_theorem (oe : OrbitalElements) :
    (calculateAltitude oe.semiMajorAxis ≠ 36000 →
      classifyOrbitType oe = OrbitType.lowEarthOrbit ∨
      classifyOrbitType oe = OrbitType.mediumEarthOrbit ∨
      classifyOrbitType oe = OrbitType.geostationary ∨
      classifyOrbitType oe = OrbitType.highEarthOrbit) ∧
    ((classifyOrbitType oe = OrbitType.polar ∨
      classifyOrbitType oe = OrbitType.sunSynchronous ∨
      classifyOrbitType oe = OrbitType.unknown) →
      calculateAltitude oe.semiMajorAxis = 36000) := by
  have main : calculateAltitude oe.semiMajorAxis ≠ 36000 →
      classifyOrbitType oe = OrbitType.lowEarthOrbit ∨
      classifyOrbitType oe = OrbitType.mediumEarthOrbit ∨
      classifyOrbitType oe = OrbitType.geostationary ∨
      classifyOrbitType oe = OrbitType.highEarthOrbit := by
    intro hne
    unfold classifyOrbitType
    by_cases h1 : calculateAltitude oe.semiMajorAxis < 2000
    · left
      rw [if_pos h1]
    · by_cases h2 : calculateAltitude oe.semiMajorAxis < 35786
      · right; left
        rw [if_neg h1, if_pos h2]
      · by_cases h3 : calculateAltitude oe.semiMajorAxis < 36000
        · right; right; left
          rw [if_neg h1, if_neg h2, if_pos ⟨not_lt.mp h2, h3⟩]
        · have h4 : 36000 < calculateAltitude oe.semiMajorAxis :=
            lt_of_le_of_ne (not_lt.mp h3) (Ne.symm hne)
          right; right; right
          rw [if_neg h1, if_neg h2, if_neg, if_pos h4]
          intro hc
          exact h3 hc.2
  refine ⟨main, ?_⟩
  intro hmem
  by_contra hne
  rcases main hne with h | h | h | h <;> rcases hmem with hm | hm | hm <;>
    rw [h] at hm <;> exact absurd hm (by decide)

/-- C9 witness: the theorem applied to elements whose derived altitude is
427 km. -/
theorem c9_witness :
    classifyOrbitType c9Elements = OrbitType.lowEarthOrbit ∨
    classifyOrbitType c9Elements = OrbitType.mediumEarthOrbit ∨
    classifyOrbitType c9Elements = OrbitType.geostationary ∨
    classifyOrbitType c9Elements = OrbitType.highEarthOrbit := by
  exact (c9_theorem c9Elements).1 (by norm_num [calculateAltitude, c9Elements])

/-- C7: classifySatelliteType is the ordered keyword rule chain of the
specification over the lowercased name (for every data source argument), and
a name containing both station and weather classifies as space station. -/
theorem c7_theorem (name source : String) :
    classifySatelliteType name source = specMissionType name ∧
    (containsSub (("station").toList) (name.toList.map Char.toLower) = true ∧
     containsSub (("weather").toList) (name.toList.map Char.toLower) = true →
      classifySatelliteType name source = SatelliteType.spaceStation) := by
  constructor
  · simp only [classifySatelliteType, specMissionType, missionTypeRules, firstRuleMatch,
      List.any_cons, List.any_nil, Bool.or_false, Bool.or_assoc]
  · rintro ⟨hs, _⟩
    simp at hs
    simp [classifySatelliteType, hs]

/-- C7 witness: a name containing both station and weather classifies as
space station, not weather. -/
theorem c7_witness :
    classifySatelliteType ("WEATHER STATION 1") ("celestrak") = SatelliteType.spaceStation := by
  exact (c7_theorem ("WEATHER STATION 1") ("celestrak")).2 ⟨by decide, by decide⟩

/-- A guarded early return equals a conjunction. -/
theorem iteFalseAnd (g x : Bool) : (if g = true then false else x) = (!g && x) := by
  cases g <;> simp

/-- The implemented filter predicate accepts a record exactly when the
record satisfies every supplied criterion. -/
theorem matchesFilter_true_iff (f : SatelliteFilter) (s : SatelliteData) :
    matchesFilter f s = true ↔ passesFilter f s := by
  obtain ⟨t, o, c, op, a, ar, ir⟩ := f
  simp only [matchesFilter, passesFilter]
  cases t <;> cases o <;> cases c <;> cases op <;> cases a <;> cases ar <;> cases ir <;>
    simp [iteFalseAnd, List.contains, bne, not_or, not_lt, and_assoc]

/-- C8: applyFilters is conjunctive: a record is in the output exactly when
it is in the input and satisfies every supplied criterion of the filter,
omitted criteria impose no constraint (both range criteria are inclusive),
and the absence of a filter returns the list unchanged. -/
theorem c8_theorem (satellites : List SatelliteData) (filter : Option SatelliteFilter)
    (s : SatelliteData) :
    (s ∈ applyFilters satellites filter ↔
      s ∈ satellites ∧ ∀ f, filter = some f → passesFilter f s) ∧
    applyFilters satellites none = satellites := by
  refine ⟨?_, rfl⟩
  cases filter with
  | none => simp [applyFilters]
  | some f =>
    simp only [applyFilters, List.mem_filter, matchesFilter_true_iff, Option.some.injEq,
      forall_eq']

/-- C8 witness: the theorem applied to the empty collection without a
filter. -/
theorem c8_witness :
    applyFilters ([] : List SatelliteData) none = [] :=
  (c8_theorem [] none (convertTLEToSatellite ("t") c10ParsedTLE ("celestrak"))).2

/-- The endpoint loop leaves the accumulator unchanged when every endpoint
request failed. -/
theorem celestrakFold_all_failed (now : String) :
    ∀ (l : List (String × Except String (List ParsedTLE))) (acc : List SatelliteData),
      (∀ p ∈ l, exceptFailed p.2 = true) → l.foldl (celestrakEndpointStep now) acc = acc := by
  intro l
  induction l with
  | nil => intro acc _; rfl
  | cons p rest ih =>
    intro acc h
    have hp := h p (List.mem_cons_self p rest)
    rw [List.foldl_cons]
    cases hp2 : p.2 with
    | ok v => rw [hp2] at hp; simp [exceptFailed] at hp
    | error e =>
      have hstep : celestrakEndpointStep now acc p = acc := by
        simp [celestrakEndpointStep, hp2]
      rw [hstep]
      exact ih acc fun q hq => h q (List.mem_cons_of_mem p hq)

/-- Filtering the empty collection gives the empty collection. -/
theorem applyFilters_nil (filter : Option SatelliteFilter) : applyFilters [] filter = [] := by
  cases filter <;> rfl

/-- C1 counterexample: on a cache miss with all eight CelesTrak endpoint
requests failing and a Space-Track response that would succeed with one
record, getActiveSatellites returns the empty collection with no error: the
fallback is not attempted (its result would be nonempty) and no
SATELLITE_FETCH_FAILED error is produced. -/
theorem c1_counterexample :
    getActiveSatellites ("2024-01-01T00:00:00Z") none c1FailedEndpoints c1SpaceTrackResponse
        none = Except.ok [] ∧
    celestrakFailureHandler ("2024-01-01T00:00:00Z") ("celestrak down") c1SpaceTrackResponse
        none ≠ Except.ok ([] : List SatelliteData) := by
  constructor
  · rfl
  · simp [celestrakFailureHandler, fetchFromSpaceTrack, applyFilters, c1SpaceTrackResponse]

/-- C1 amended: when every CelesTrak endpoint request fails with a caught
error, the cache missing getActiveSatellites returns the empty collection
and never consults Space-Track; the Space-Track fallback lives only in the
handler for a thrown CelesTrak fetch, where a second failure produces the
terminal SATELLITE_FETCH_FAILED error with status 500 carrying both
underlying errors. -/
theorem c1_theorem (now : String)
    (celestrakResults : List (String × Except String (List ParsedTLE)))
    (spaceTrackResponse : Except String (List ParsedTLE))
    (filter : Option SatelliteFilter) (e fallbackErr : String) :
    ((∀ p ∈ celestrakResults, exceptFailed p.2 = true) →
      getActiveSatellites now none celestrakResults spaceTrackResponse filter =
        Except.ok []) ∧
    celestrakFailureHandler now e (Except.error fallbackErr) filter =
      Except.error
        { code := "SATELLITE_FETCH_FAILED"
          message := "SATELLITE_FETCH_FAILED: Failed to fetch satellite data from all sources"
          status := 500
          originalError := e
          fallbackError := fallbackErr } := by
  constructor
  · intro h
    have hf : fetchFromCelesTrak now celestrakResults = [] :=
      celestrakFold_all_failed now celestrakResults [] h
    simp [getActiveSatellites, getActiveSatellitesUncached, hf, applyFilters_nil]
  · rfl

/-- C1 witness: the amended theorem applied to the eight failing endpoints
and a failing Space-Track response. -/
theorem c1_witness :
    getActiveSatellites ("t0") none c1FailedEndpoints (Except.error ("auth rejected")) none =
      Except.ok [] ∧
    celestrakFailureHandler ("t0") ("celestrak down") (Except.error ("auth rejected")) none =
      Except.error
        { code := "SATELLITE_FETCH_FAILED"
          message := "SATELLITE_FETCH_FAILED: Failed to fetch satellite data from all sources"
          status := 500
          originalError := "celestrak down"
          fallbackError := "auth rejected" } := by
  have h := c1_theorem ("t0") c1FailedEndpoints (Except.error ("auth rejected")) none
      ("celestrak down") ("auth rejected")
  exact ⟨h.1 (by decide), h.2⟩

/-- C10: every record produced by convertTLEToSatellite has isActive true,
so a filter demanding inactive records empties any freshly converted
collection and the statistics over it report zero inactive records. -/
theorem c10_theorem (now source : String) (tles : List ParsedTLE) (filter : SatelliteFilter) :
    (∀ s ∈ tles.map fun tle => convertTLEToSatellite now tle source, s.isActive = true) ∧
    (filter.isActive = some false →
      applyFilters (tles.map fun tle => convertTLEToSatellite now tle source) (some filter) =
        []) ∧
    (getSatelliteStatsOf (tles.map fun tle => convertTLEToSatellite now tle source)).inactive =
      0 := by
  have hact : ∀ s ∈ tles.map fun tle => convertTLEToSatellite now tle source,
      s.isActive = true := by
    intro s hs
    rcases List.mem_map.mp hs with ⟨t, _, rfl⟩
    rfl
  refine ⟨hact, ?_, ?_⟩
  · intro hf
    unfold applyFilters
    rw [List.filter_eq_nil_iff]
    intro s hs hm
    have hp := (matchesFilter_true_iff filter s).mp hm
    have hIs := hp.2.2.2.2.1 false hf
    rw [hact s hs] at hIs
    exact absurd hIs (by decide)
  · have hnil : (tles.map fun tle => convertTLEToSatellite now tle source).filter
        (fun s => !s.isActive) = [] := by
      rw [List.filter_eq_nil_iff]
      intro s hs
      simp [hact s hs]
    simp [getSatelliteStatsOf, hnil]

/-- C10 witness: the theorem applied to one converted record and the filter
that selects inactive records. -/
theorem c10_witness :
    applyFilters ([c10ParsedTLE].map fun tle => convertTLEToSatellite ("t0") tle ("celestrak"))
        (some c10Filter) = [] ∧
    (getSatelliteStatsOf
        ([c10ParsedTLE].map fun tle => convertTLEToSatellite ("t0") tle ("celestrak"))).inactive =
      0 := by
  have h := c10_theorem ("t0") ("celestrak") [c10ParsedTLE] c10Filter
  exact ⟨h.2.1 rfl, h.2.2⟩
